import Mathlib

/-
Verification of the AutoCarV9 service-to-invoice workflow engine.

The definitions below are a shallow embedding of the request handlers in
src/server/routes.ts (part resolution, service-visit PATCH, invoice
creation / approval / payment / PDF access, warranty-card sync) and of the
client-side status gate in the Services page (src/unnamed/part_000).
Persistent-store reads are passed in as explicit arguments (lookup
functions or Option values), JavaScript numbers holding money are
modelled as exact rationals, and timestamps as natural-number counters.
-/

namespace AutoCar

/-! ## String constants used by the handlers -/

def legacyPfx : String := "product-"
def databaseS : String := "database"
def predefinedS : String := "predefined"
def inquiredS : String := "inquired"
def workingS : String := "working"
def waitingS : String := "waiting"
def completedS : String := "completed"
def emptyS : String := ""
def draftS : String := "draft"
def pendingApprovalS : String := "pending_approval"
def approvedS : String := "approved"
def rejectedS : String := "rejected"
def unpaidS : String := "unpaid"
def partPayS : String := "partial"
def paidS : String := "paid"
def productS : String := "product"
def manufacturerS : String := "manufacturer"
def activeS : String := "active"
def noneS : String := "none"
def upiS : String := "UPI"
def cashS : String := "Cash"
def cardS : String := "Card"
def netBankingS : String := "Net Banking"
def chequeS : String := "Cheque"
def visitNotFoundMsg : String := "Service visit not found"
def noCustomerMsg : String := "Service visit has no associated customer"
def notCompletedMsg : String := "Can only generate invoice for completed service visits"

/-! ## Character-list string primitives (executable stand-ins for the
JavaScript string operations used by the handlers) -/

/-- `hay.startsWith(needle)` over character lists. -/
def listStartsWith : List Char → List Char → Bool
  | _, [] => true
  | [], _ :: _ => false
  | c :: cs, p :: ps => c == p && listStartsWith cs ps

/-- Substring containment over character lists. -/
def containsSeq : List Char → List Char → Bool
  | [], needle => needle.isEmpty
  | c :: cs, needle => listStartsWith (c :: cs) needle || containsSeq cs needle

/-- `s.startsWith(p)` on strings, evaluated through character lists. -/
def strStartsWith (s p : String) : Bool :=
  listStartsWith s.data p.data

/-- `s.toUpperCase()` (ASCII case mapping). -/
def upperStr (s : String) : String :=
  String.mk (s.data.map Char.toUpper)

/-- Whether `needle` occurs as a substring of `hay`. -/
def strContains (hay needle : String) : Bool :=
  containsSeq hay.data needle.data

/-! ## Part Resolver — POST /api/products/resolve-by-ids (routes.ts 668-730) -/

/-- A persisted product (the `Product` collection). -/
structure Product where
  name : String
  category : String
  brand : String
  sellingPrice : Rat
  warranty : Option String
  stockQty : Nat
deriving DecidableEq

/-- A predefined catalog part (shared vehicleData, outside src/; its lookup
`getPartById` is passed in as an abstract function). -/
structure CatalogPart where
  id : String
  name : String
  category : String
  price : Rat
deriving DecidableEq

/-- The persisted-product store. `valid` models which identifier strings are
well-formed store keys (Mongo ObjectIds): `findById` on an invalid key throws
a cast error, which the handler catches. -/
structure Db where
  valid : String → Bool
  find : String → Option Product

/-- `Product.findById`, returning an error on a malformed key (the thrown
CastError) and the lookup result otherwise. -/
def findByIdE (db : Db) (id : String) : Except Unit (Option Product) :=
  if db.valid id then .ok (db.find id) else .error ()

/-- One resolved entry of the response (routes.ts 687-712). -/
structure ResolvedPart where
  id : String
  name : String
  category : String
  brand : Option String
  price : Rat
  warranty : Option String
  stockQty : Option Nat
  source : String
deriving DecidableEq

/-- Strip the legacy prefix: `productId.startsWith('product-') ?
productId.replace('product-', '') : productId` (routes.ts 684). The guarded
replace removes exactly the leading occurrence. -/
def stripLegacy (id : String) : String :=
  if strStartsWith id legacyPfx then String.mk (id.data.drop legacyPfx.data.length)
  else id

/-- The persisted-store attempt (routes.ts 683-699): strip the prefix, look up
the remainder; a thrown cast error is swallowed and treated as a miss. The
returned record carries the original, unstripped identifier. -/
def dbAttempt (db : Db) (id : String) : Option ResolvedPart :=
  match findByIdE db (stripLegacy id) with
  | .error _ => none
  | .ok none => none
  | .ok (some p) =>
      some { id := id, name := p.name, category := p.category,
             brand := some p.brand, price := p.sellingPrice,
             warranty := p.warranty, stockQty := some p.stockQty,
             source := databaseS }

/-- The catalog fallback (routes.ts 701-713), looked up by the original id. -/
def catalogAttempt (catalog : String → Option CatalogPart) (id : String) :
    Option ResolvedPart :=
  match catalog id with
  | none => none
  | some part =>
      some { id := part.id, name := part.name, category := part.category,
             brand := none, price := part.price, warranty := none,
             stockQty := none, source := predefinedS }

/-- Resolution of a single identifier: persisted store first, catalog second. -/
def resolveOne (db : Db) (catalog : String → Option CatalogPart) (id : String) :
    Option ResolvedPart :=
  match dbAttempt db id with
  | some r => some r
  | none => catalogAttempt catalog id

/-- The batch loop (routes.ts 680-720): resolved entries and not-found ids,
both in request order; an individual miss never fails the batch. -/
def resolveByIds (db : Db) (catalog : String → Option CatalogPart) :
    List String → List ResolvedPart × List String
  | [] => ([], [])
  | id :: rest =>
      let acc := resolveByIds db catalog rest
      match resolveOne db catalog id with
      | some r => (r :: acc.1, acc.2)
      | none => (acc.1, id :: acc.2)

/-! ## Service visits — PATCH /api/service-visits/:id (routes.ts 1417-1586)
and the client status gate handleStatusUpdate (Services page, part_000). -/

/-- A service visit document. `customer` is the populated `customerId`
reference; timestamps are natural-number counters. -/
structure ServiceVisit where
  status : String
  vehicleReg : String
  notes : Option String
  beforeImages : List String
  afterImages : List String
  handlerIds : List String
  partsUsed : List String
  totalAmount : Option Rat
  stageTimestamps : List (String × Nat)
  customerMongoId : Option String
deriving DecidableEq

/-- The PATCH request body; `none` models an absent (undefined) field. -/
structure VisitPatchBody where
  status : Option String := none
  notes : Option String := none
  beforeImages : Option (List String) := none
  afterImages : Option (List String) := none
  handlerIds : Option (List String) := none
  partsUsed : Option (List String) := none
  totalAmount : Option Rat := none
deriving DecidableEq

/-- Base64 alphabet characters `[A-Za-z0-9+/]`. -/
def isB64Char (c : Char) : Bool :=
  c.isAlphanum || c == ('+') || c == ('/')

/-- Matcher for the anchored regex `^[A-Za-z0-9+/]*={0,2}$`: alphabet
characters followed by at most two padding characters. -/
def b64Body : List Char → Bool
  | [] => true
  | c :: rest =>
      if isB64Char c then b64Body rest
      else (c :: rest).all (fun d => d == ('=')) && (c :: rest).length ≤ 2

/-- The accepted data-URI image headers (regex
`^data:image\/(png|jpeg|jpg|gif|webp);base64,` at routes.ts 1453). -/
def imageHeaders : List String :=
  ["data:image/png;base64,", "data:image/jpeg;base64,",
   "data:image/jpg;base64,", "data:image/gif;base64,",
   "data:image/webp;base64,"]

/-- The header matched by the data-URI regex, if any. -/
def matchedHeader (img : String) : Option String :=
  imageHeaders.find? (fun h => strStartsWith img h)

/-- Per-image check from `validateImages` (routes.ts 1457-1473): empty and
already-stored HTTP(S) URLs pass; otherwise the data-URI header must match,
the payload must be base64, and `length * 0.75 / 1024² ≤ 50` (⇔
`3 * length ≤ 209715200` exactly). -/
def validImage (img : String) : Bool :=
  if img == emptyS then true
  else if strStartsWith img ("http://") || strStartsWith img ("https://") then
    true
  else
    match matchedHeader img with
    | none => false
    | some h =>
        let content := img.data.drop h.data.length
        b64Body content && 3 * content.length ≤ 209715200

/-- `validateImages` (routes.ts 1451-1474). -/
def validateImages (images : List String) : Bool :=
  images.all validImage

/-- Field application of the PATCH body (routes.ts 1490-1499): each field is
overwritten exactly when present in the request. -/
def applyPatchFields (v : ServiceVisit) (b : VisitPatchBody) : ServiceVisit :=
  { v with
    status := b.status.getD v.status,
    notes := match b.notes with | some n => some n | none => v.notes,
    beforeImages := b.beforeImages.getD v.beforeImages,
    afterImages := b.afterImages.getD v.afterImages,
    handlerIds := b.handlerIds.getD v.handlerIds,
    partsUsed := b.partsUsed.getD v.partsUsed,
    totalAmount := match b.totalAmount with | some t => some t | none => v.totalAmount }

/-- Modelled from the spec: the ServiceVisit pre-save hook (the Mongoose model
file is not under src/; routes.ts 1508 documents that saving "triggers the
pre('save') hook which updates stageTimestamps"). On an accepted status
change the phase-specific timestamp is stamped with the current time,
additively — stamps for other phases are retained. -/
def stampStageTimestamps (previousStatus : String) (v : ServiceVisit) (now : Nat) :
    ServiceVisit :=
  if v.status ≠ previousStatus then
    { v with stageTimestamps :=
        (v.status, now) :: v.stageTimestamps.filter (fun e => e.1 ≠ v.status) }
  else v

inductive PatchError
  | notFound
  | invalidBeforeImages
  | invalidAfterImages
deriving DecidableEq

/-- The PATCH handler (routes.ts 1417-1586): 404 on a missing visit, 400 on a
malformed image payload, otherwise every supplied field — the status
included, with no handler or image precondition — is applied and saved. -/
def serviceVisitPatch (visit? : Option ServiceVisit) (body : VisitPatchBody)
    (now : Nat) : Except PatchError ServiceVisit :=
  match visit? with
  | none => .error .notFound
  | some visit =>
      if (match body.beforeImages with
          | some imgs => !(validateImages imgs)
          | none => false) then .error .invalidBeforeImages
      else if (match body.afterImages with
          | some imgs => !(validateImages imgs)
          | none => false) then .error .invalidAfterImages
      else
        .ok (stampStageTimestamps visit.status (applyPatchFields visit body) now)

/-- Status of an accepted PATCH result. -/
def patchStatusOf : Except PatchError ServiceVisit → Option String
  | .ok v => some v.status
  | .error _ => none

/-- Insertion of a string into a sorted list (JS default `sort()` order). -/
def insertStr (s : String) : List String → List String
  | [] => [s]
  | t :: rest => if s ≤ t then s :: t :: rest else t :: insertStr s rest

/-- Sorting used to compare handler lists up to order
(`JSON.stringify(xs.sort())` comparison in handleStatusUpdate). -/
def sortStrs : List String → List String
  | [] => []
  | s :: rest => insertStr s (sortStrs rest)

/-- Outcome of the client-side gate. -/
inductive ClientAction
  | noop
  | rejectHandler
  | rejectBefore
  | rejectAfter
  | noChanges
  | sendPatch (body : VisitPatchBody)
deriving DecidableEq

/-- `handleStatusUpdate` from the Services page (part_000, 1203-1262): the
client-side precondition gate run before any PATCH is issued. A non-inquired
target with no handlers, a working/waiting target with no before-image, and a
completed target with no after-image are each rejected with a validation
toast and no request; otherwise (and when something changed) the PATCH body
is sent. -/
def handleStatusUpdate (service? : Option ServiceVisit) (selectedStatus : String)
    (selectedHandlers beforeImgs afterImgs : List String) : ClientAction :=
  match service? with
  | none => .noop
  | some service =>
      if selectedStatus == emptyS then .noop
      else if selectedStatus != inquiredS && selectedHandlers.isEmpty then
        .rejectHandler
      else if (selectedStatus == workingS || selectedStatus == waitingS)
          && beforeImgs.isEmpty then .rejectBefore
      else if selectedStatus == completedS && afterImgs.isEmpty then
        .rejectAfter
      else if selectedStatus == service.status
          && beforeImgs == service.beforeImages
          && afterImgs == service.afterImages
          && sortStrs selectedHandlers == sortStrs service.handlerIds then
        .noChanges
      else
        .sendPatch { status := some selectedStatus,
                     beforeImages := some beforeImgs,
                     afterImages := some afterImgs,
                     handlerIds := some selectedHandlers }

/-! ## Invoice lifecycle — data model and
POST /api/invoices/from-service-visit (routes.ts 4378-4530). -/

/-- A registration customer, with the fields snapshotted at invoice
creation (routes.ts 4415-4430). -/
structure Customer where
  mongoId : String
  referenceCode : Option String
  fullName : String
  mobileNumber : String
  alternativeNumber : Option String
  email : Option String
  address : Option String
  city : Option String
  taluka : Option String
  district : Option String
  state : Option String
  pinCode : Option String
  referralSource : Option String
  isVerified : Bool
  createdAt : Nat
deriving DecidableEq

/-- A per-part warranty card stored on a vehicle (upsert key `partId`). -/
structure VehicleCard where
  partId : String
  partName : String
  fileData : String
deriving DecidableEq

/-- A registration vehicle (fields used by the snapshot at routes.ts
4433-4447 and by the warranty sync). -/
structure Vehicle where
  mongoId : String
  customerId : String
  vehicleId : String
  vehicleNumber : String
  vehicleBrand : String
  vehicleModel : String
  customModel : Option String
  variant : Option String
  color : Option String
  yearOfPurchase : Option Nat
  vehiclePhoto : Option String
  isNewVehicle : Bool
  chassisNumber : Option String
  selectedParts : List String
  warrantyCards : List VehicleCard
  createdAt : Nat
deriving DecidableEq

/-- The denormalized vehicle snapshot stored on an invoice. -/
structure VehicleDetails where
  vehicleId : String
  vehicleNumber : String
  vehicleBrand : String
  vehicleModel : String
  customModel : Option String
  variant : Option String
  color : Option String
  yearOfPurchase : Option Nat
  vehiclePhoto : Option String
  isNewVehicle : Bool
  chassisNumber : Option String
  selectedParts : List String
  vehicleRegistrationDate : Nat
deriving DecidableEq

/-- The denormalized customer snapshot stored on an invoice. -/
structure CustomerDetails where
  referenceCode : Option String
  fullName : String
  mobileNumber : String
  alternativeNumber : Option String
  email : Option String
  address : Option String
  city : Option String
  taluka : Option String
  district : Option String
  state : Option String
  pinCode : Option String
  referralSource : Option String
  isVerified : Bool
  registrationDate : Nat
deriving DecidableEq

/-- A warranty card stored on an invoice line item (append-only list). -/
structure ItemCard where
  url : String
  filename : String
  uploadedAt : Nat
deriving DecidableEq

/-- An invoice line item. -/
structure InvoiceItem where
  type : String
  productId : Option String
  name : String
  description : Option String
  quantity : Nat
  unitPrice : Rat
  total : Rat
  hasWarranty : Bool
  hasGst : Bool
  gstAmount : Rat
  warrantyCards : List ItemCard
deriving DecidableEq

/-- A recorded payment-ledger entry (routes.ts 5033-5040). -/
structure Payment where
  amount : Rat
  paymentMode : String
  transactionId : Option String
  notes : Option String
  recordedBy : String
  transactionDate : Nat
deriving DecidableEq

/-- Approval / rejection bookkeeping. -/
structure ApprovalInfo where
  approvedBy : Option String := none
  approvedAt : Option Nat := none
  rejectedBy : Option String := none
  rejectedAt : Option Nat := none
  rejectionReason : Option String := none
deriving DecidableEq

/-- An invoice document. -/
structure Invoice where
  mongoId : String
  invoiceNumber : String
  serviceVisitId : String
  customerId : Option String
  customerDetails : Option CustomerDetails
  vehicleDetails : List VehicleDetails
  items : List InvoiceItem
  subtotal : Rat
  discountType : String
  discountValue : Rat
  discountAmount : Rat
  couponCode : Option String
  couponId : Option String
  taxRate : Rat
  taxAmount : Rat
  totalAmount : Rat
  paidAmount : Rat
  dueAmount : Rat
  payments : List Payment
  status : String
  paymentStatus : String
  paymentMethod : Option String
  approvalStatus : Option ApprovalInfo
  pdfAccessToken : Option String
  pdfTokenExpiry : Option Nat
  pdfPath : Option String
  notes : Option String
  terms : Option String
  createdBy : String
  createdAt : Nat
deriving DecidableEq

/-- A coupon usage-history ledger entry (routes.ts 4504-4510). -/
structure UsageEntry where
  invoiceId : String
  customerId : String
  discountApplied : Rat
deriving DecidableEq

/-- A coupon document. The `isValid` and `calculateDiscount` methods live in
the Coupon model file, which is not under src/; the handler only branches on
their results, so they are carried as oracle fields. -/
structure Coupon where
  mongoId : String
  code : String
  discountType : String
  discountValue : Rat
  usedCount : Nat
  usageHistory : List UsageEntry
  validFor : String → Rat → Bool
  discountFor : Rat → Rat

/-- Sum of the pre-supplied per-line totals (routes.ts 4450). -/
def sumTotals (items : List InvoiceItem) : Rat :=
  items.foldl (fun sum item => sum + item.total) 0

/-- The customer snapshot (routes.ts 4415-4430). -/
def snapshotCustomer (c : Customer) : CustomerDetails :=
  { referenceCode := c.referenceCode, fullName := c.fullName,
    mobileNumber := c.mobileNumber, alternativeNumber := c.alternativeNumber,
    email := c.email, address := c.address, city := c.city,
    taluka := c.taluka, district := c.district, state := c.state,
    pinCode := c.pinCode, referralSource := c.referralSource,
    isVerified := c.isVerified, registrationDate := c.createdAt }

/-- The vehicle snapshot (routes.ts 4433-4447). -/
def snapshotVehicle (v : Vehicle) : VehicleDetails :=
  { vehicleId := v.vehicleId, vehicleNumber := v.vehicleNumber,
    vehicleBrand := v.vehicleBrand, vehicleModel := v.vehicleModel,
    customModel := v.customModel, variant := v.variant, color := v.color,
    yearOfPurchase := v.yearOfPurchase, vehiclePhoto := v.vehiclePhoto,
    isNewVehicle := v.isNewVehicle, chassisNumber := v.chassisNumber,
    selectedParts := v.selectedParts, vehicleRegistrationDate := v.createdAt }

/-- The request body of invoice creation. -/
structure CreateInvoiceReq where
  serviceVisitId : String
  items : List InvoiceItem
  couponCode : Option String := none
  taxRate : Rat := 18
  notes : Option String := none
  terms : Option String := none

/-- JavaScript truthiness of an optional string (`if (couponCode)`). -/
def truthyStr : Option String → Bool
  | none => false
  | some s => s != emptyS

/-- POST /api/invoices/from-service-visit (routes.ts 4378-4530). `visit?` is
the populated visit, `customer?` its populated customer reference,
`allVehicles` the RegistrationVehicle collection, `findCoupon` the lookup
`Coupon.findOne({code})` keyed by the uppercased code, and `newInvoiceId` /
`newInvoiceNumber` the generated identity. Returns the saved invoice and,
when a coupon was redeemed, the updated coupon document (usage counter
incremented and ledger entry appended in the same update, routes.ts
4501-4512). Fields absent from the constructor take the schema defaults of
the Invoice model (paidAmount 0, paymentStatus unpaid, no payments), per the
spec's payment sub-state `unpaid → partial → paid`. -/
def createInvoiceFromVisit (visit? : Option ServiceVisit)
    (customer? : Option Customer) (allVehicles : List Vehicle)
    (findCoupon : String → Option Coupon) (req : CreateInvoiceReq)
    (userId newInvoiceId newInvoiceNumber : String) (now : Nat) :
    Except String (Invoice × Option Coupon) :=
  match visit? with
  | none => .error visitNotFoundMsg
  | some visit =>
      match customer? with
      | none => .error noCustomerMsg
      | some customer =>
          if visit.status ≠ completedS then .error notCompletedMsg
          else
            let vehicles := allVehicles.filter
              (fun v => v.customerId == customer.mongoId)
            let subtotal := sumTotals req.items
            let couponHit :=
              if truthyStr req.couponCode then
                match findCoupon (upperStr (req.couponCode.getD emptyS)) with
                | some coupon =>
                    if coupon.validFor customer.mongoId subtotal then
                      some coupon
                    else none
                | none => none
              else none
            let discountAmount :=
              match couponHit with
              | some c => c.discountFor subtotal
              | none => 0
            let totalAmount := subtotal - discountAmount
            let invoice : Invoice :=
              { mongoId := newInvoiceId,
                invoiceNumber := newInvoiceNumber,
                serviceVisitId := req.serviceVisitId,
                customerId := some customer.mongoId,
                customerDetails := some (snapshotCustomer customer),
                vehicleDetails := vehicles.map snapshotVehicle,
                items := req.items,
                subtotal := subtotal,
                discountType := (couponHit.map Coupon.discountType).getD noneS,
                discountValue := (couponHit.map Coupon.discountValue).getD 0,
                discountAmount := discountAmount,
                couponCode := req.couponCode.map upperStr,
                couponId := couponHit.map Coupon.mongoId,
                taxRate := req.taxRate,
                taxAmount := 0,
                totalAmount := totalAmount,
                paidAmount := 0,
                dueAmount := totalAmount,
                payments := [],
                status := pendingApprovalS,
                paymentStatus := unpaidS,
                paymentMethod := none,
                approvalStatus := none,
                pdfAccessToken := none,
                pdfTokenExpiry := none,
                pdfPath := none,
                notes := req.notes,
                terms := req.terms,
                createdBy := userId,
                createdAt := now }
            let couponUpdate :=
              couponHit.map (fun c =>
                { c with usedCount := c.usedCount + 1,
                         usageHistory := c.usageHistory ++
                           [{ invoiceId := newInvoiceId,
                              customerId := customer.mongoId,
                              discountApplied := discountAmount }] })
            .ok (invoice, couponUpdate)

/-! ## Invoice approval — POST /api/invoices/:id/approve (routes.ts
4533-4722), with the warranty-record creation of routes.ts 4639-4669. -/

/-- Value of the first run of decimal digits in a character list. -/
def digitsVal (ds : List Char) : Nat :=
  ds.foldl (fun n c => 10 * n + (c.toNat - (('0') : Char).toNat)) 0

/-- First maximal digit run (the JS regex match `/\d+/`). -/
def firstRun : List Char → Option (List Char)
  | [] => none
  | c :: rest =>
      if c.isDigit then some (c :: rest.takeWhile (fun d => d.isDigit))
      else firstRun rest

/-- First integer literal contained in a string, if any. -/
def firstDigitRun (s : String) : Option Nat :=
  (firstRun s.data).map digitsVal

/-- `parseInt(product.warranty.match(/\d+/)?.[0] || '12')` (routes.ts
4646): the first integer literal of the free-text warranty string, with 12
as the default when the string contains none. -/
def warrantyDuration (w : String) : Nat :=
  (firstDigitRun w).getD 12

/-- A warranty record (the Warranty collection). Dates are month indexes, so
`endDate.setMonth(startDate.getMonth() + durationMonths)` is month
addition. -/
structure Warranty where
  invoiceId : String
  customerId : String
  productId : String
  productName : String
  warrantyType : String
  durationMonths : Nat
  startDate : Nat
  endDate : Nat
  coverage : String
  status : String
deriving DecidableEq

/-- The body mapped over warranty-flagged product items at routes.ts
4642-4663: no record when the persisted product is missing or its warranty
string is falsy (absent or empty); otherwise a record whose duration is
parsed from the warranty string and whose end date is start plus duration
months. -/
def mkWarrantyForItem (products : String → Option Product)
    (invoiceId customerId : String) (startDate : Nat) (item : InvoiceItem) :
    Option Warranty :=
  match item.productId.bind products with
  | none => none
  | some p =>
      match p.warranty with
      | none => none
      | some w =>
          if w == emptyS then none
          else
            some { invoiceId := invoiceId, customerId := customerId,
                   productId := item.productId.getD emptyS,
                   productName := item.name,
                   warrantyType := manufacturerS,
                   durationMonths := warrantyDuration w,
                   startDate := startDate,
                   endDate := startDate + warrantyDuration w,
                   coverage := w, status := activeS }

/-- The warranty records created on approval (routes.ts 4640-4665): line
items flagged `hasWarranty` of type `product`, through
`mkWarrantyForItem`. -/
def warrantiesOnApproval (products : String → Option Product)
    (invoiceId customerId : String) (startDate : Nat)
    (items : List InvoiceItem) : List Warranty :=
  (items.filter (fun item => item.hasWarranty && item.type == productS)).filterMap
    (mkWarrantyForItem products invoiceId customerId startDate)

/-- Environment of one approval run: the generated token, the clock (days
for the token expiry, a month index for warranty dates), the persisted
products, and the outcome of each best-effort sub-step — PDF rendering
(path or thrown error), warranty creation and notification dispatch (throw
or not). -/
structure ApproveEnv where
  token : String
  nowDay : Nat
  nowMonth : Nat
  products : String → Option Product
  pdfResult : Except Unit String
  warrantyThrows : Bool
  notifyThrows : Bool

inductive ApproveError
  | notFound
  | notPending (currentStatus : String)
deriving DecidableEq

/-- Result of a successful approval: the persisted invoice and the created
warranty records. -/
structure ApproveOutcome where
  invoice : Invoice
  warranties : List Warranty
deriving DecidableEq

/-- POST /api/invoices/:id/approve (routes.ts 4533-4722). A non-pending
invoice is rejected with a conflict carrying its current status and is not
modified. Otherwise the status flips to approved and the access token with
a 7-day expiry is persisted (routes.ts 4574-4593); the PDF, warranty and
notification steps each run inside their own try/catch, so their failures
never revert the saved approval. -/
def approveInvoice (invoice? : Option Invoice) (userId : String)
    (env : ApproveEnv) : Except ApproveError ApproveOutcome :=
  match invoice? with
  | none => .error .notFound
  | some invoice =>
      if invoice.status ≠ pendingApprovalS then
        .error (.notPending invoice.status)
      else
        let saved :=
          { invoice with
            status := approvedS,
            approvalStatus := some { approvedBy := some userId,
                                     approvedAt := some env.nowDay },
            pdfAccessToken := some env.token,
            pdfTokenExpiry := some (env.nowDay + 7) }
        let afterPdf :=
          match env.pdfResult with
          | .ok path => { saved with pdfPath := some path }
          | .error _ => saved
        let warranties :=
          if env.warrantyThrows then []
          else warrantiesOnApproval env.products invoice.mongoId
            ((invoice.customerId).getD emptyS) env.nowMonth invoice.items
        .ok { invoice := afterPdf, warranties := warranties }

/-- Status stored by an approval result. -/
def approvedStatusOf : Except ApproveError ApproveOutcome → Option String
  | .ok o => some o.invoice.status
  | .error _ => none

/-- Access token stored by an approval result. -/
def approvedTokenOf : Except ApproveError ApproveOutcome → Option (Option String)
  | .ok o => some o.invoice.pdfAccessToken
  | .error _ => none

/-- Token expiry stored by an approval result. -/
def approvedExpiryOf : Except ApproveError ApproveOutcome → Option (Option Nat)
  | .ok o => some o.invoice.pdfTokenExpiry
  | .error _ => none

/-! ## Payment endpoints — PATCH /api/invoices/:id/payment-status (routes.ts
4768-4831) and POST /api/invoices/:id/payments (routes.ts 5012-5069). -/

inductive PayError
  | invalidStatus
  | invalidMethod
  | notFound
  | notApproved
  | exceedsDue
deriving DecidableEq

/-- The accepted payment methods (routes.ts 4781). -/
def allowedMethods : List String :=
  [upiS, cashS, cardS, netBankingS, chequeS]

/-- PATCH /api/invoices/:id/payment-status (routes.ts 4768-4831). The input
must be one of paid / unpaid / partial; the invoice must be approved. The
requested value is assigned unconditionally (routes.ts 4796); only paid and
unpaid additionally rewrite the paid/due amounts and the payment method. -/
def setPaymentStatus (invoice? : Option Invoice) (paymentStatus : String)
    (paymentMethod : Option String) : Except PayError Invoice :=
  if ¬ ([paidS, unpaidS, partPayS].contains paymentStatus) then
    .error .invalidStatus
  else if paymentStatus == paidS && truthyStr paymentMethod
      && !(allowedMethods.contains (paymentMethod.getD emptyS)) then
    .error .invalidMethod
  else
    match invoice? with
    | none => .error .notFound
    | some invoice =>
        if invoice.status ≠ approvedS then .error .notApproved
        else
          let inv := { invoice with paymentStatus := paymentStatus }
          if paymentStatus == paidS then
            .ok { inv with paidAmount := inv.totalAmount, dueAmount := 0,
                           paymentMethod :=
                             if truthyStr paymentMethod then paymentMethod
                             else inv.paymentMethod }
          else if paymentStatus == unpaidS then
            .ok { inv with paidAmount := 0, dueAmount := inv.totalAmount,
                           paymentMethod := none }
          else .ok inv

/-- Payment status stored by an accepted toggle. -/
def payStatusOf : Except PayError Invoice → Option String
  | .ok inv => some inv.paymentStatus
  | .error _ => none

/-- POST /api/invoices/:id/payments (routes.ts 5012-5069): on an approved
invoice and an amount not exceeding the due amount, append a ledger entry,
move the amount from due to paid, and derive the payment status. -/
def recordPayment (invoice? : Option Invoice) (amount : Rat)
    (paymentMode : String) (transactionId notes : Option String)
    (userId : String) (now : Nat) : Except PayError Invoice :=
  match invoice? with
  | none => .error .notFound
  | some invoice =>
      if invoice.status ≠ approvedS then .error .notApproved
      else if amount > invoice.dueAmount then .error .exceedsDue
      else
        let inv :=
          { invoice with
            payments := invoice.payments ++
              [{ amount := amount, paymentMode := paymentMode,
                 transactionId := transactionId, notes := notes,
                 recordedBy := userId, transactionDate := now }],
            paidAmount := invoice.paidAmount + amount,
            dueAmount := invoice.dueAmount - amount }
        if inv.dueAmount = 0 then .ok { inv with paymentStatus := paidS }
        else if inv.paidAmount > 0 then .ok { inv with paymentStatus := partPayS }
        else .ok inv

/-- One call of the payment surface, for sequencing. -/
inductive PaymentCall
  | record (amount : Rat) (mode : String) (tid notes : Option String)
      (userId : String) (now : Nat)
  | setStatus (ps : String) (method : Option String)

/-- Apply one call; a rejected call leaves the stored invoice unchanged. -/
def applyPaymentCall (inv : Invoice) : PaymentCall → Invoice
  | .record a m t n u d =>
      match recordPayment (some inv) a m t n u d with
      | .ok inv2 => inv2
      | .error _ => inv
  | .setStatus ps m =>
      match setPaymentStatus (some inv) ps m with
      | .ok inv2 => inv2
      | .error _ => inv

/-- Apply a sequence of payment calls. -/
def applyPaymentCalls (inv : Invoice) : List PaymentCall → Invoice
  | [] => inv
  | c :: rest => applyPaymentCalls (applyPaymentCall inv c) rest

/-! ## Token-gated public PDF — GET /api/public/invoices/:id/pdf
(routes.ts 4893-5009). -/

inductive PubPdfResult
  | notFound
  | notApproved
  | invalidToken
  | expired
  | served (path : String)
deriving DecidableEq

/-- GET /api/public/invoices/:id/pdf (routes.ts 4893-5009). Checks run in
source order: invoice existence, then `status !== 'approved'` (routes.ts
4915), then the token comparison (routes.ts 4930), then the expiry
(routes.ts 4938); `fileExists` and `genPath` model the artifact check and
the idempotent re-render. -/
def publicInvoicePdf (invoice? : Option Invoice) (token? : Option String)
    (now : Nat) (fileExists : String → Bool) (genPath : String) :
    PubPdfResult :=
  match invoice? with
  | none => .notFound
  | some invoice =>
      if invoice.status ≠ approvedS then .notApproved
      else
        match invoice.pdfAccessToken with
        | none => .invalidToken
        | some expected =>
            if expected == emptyS then .invalidToken
            else if token? ≠ some expected then .invalidToken
            else
              match invoice.pdfTokenExpiry with
              | some expiry =>
                  if now > expiry then .expired
                  else
                    match invoice.pdfPath with
                    | some p => if fileExists p then .served p else .served genPath
                    | none => .served genPath
              | none =>
                  match invoice.pdfPath with
                  | some p => if fileExists p then .served p else .served genPath
                  | none => .served genPath

/-! ## Warranty-card sync — POST /api/invoices/:id/warranty-cards
(routes.ts 5146-5282), vehicle side. -/

/-- The vehicle-side upsert (routes.ts 5231-5247): `findIndex` by `partId`
replaces the first matching entry, otherwise the new entry is pushed. -/
def upsertCard (pid pname data : String) : List VehicleCard → List VehicleCard
  | [] => [{ partId := pid, partName := pname, fileData := data }]
  | wc :: rest =>
      if wc.partId == pid then
        { partId := pid, partName := pname, fileData := data } :: rest
      else wc :: upsertCard pid pname data rest

/-- One iteration of the vehicle loop (routes.ts 5211-5251): the vehicle is
mutated only when its identity matches the invoice's snapshotted vehicle ids
and its selected parts contain the product id. -/
def syncCardToVehicle (invoiceVehicleIds : List String)
    (pid pname data : String) (v : Vehicle) : Vehicle :=
  if (invoiceVehicleIds.contains v.vehicleId
        || invoiceVehicleIds.contains v.mongoId)
      && v.selectedParts.contains pid then
    { v with warrantyCards := upsertCard pid pname data v.warrantyCards }
  else v

/-- A sequence of uploads for the same part synced onto one vehicle; each
upload carries a part name and file data. -/
def syncUploads (invoiceVehicleIds : List String) (pid : String)
    (v : Vehicle) : List (String × String) → Vehicle
  | [] => v
  | u :: rest =>
      syncUploads invoiceVehicleIds pid
        (syncCardToVehicle invoiceVehicleIds pid u.1 u.2 v) rest

/-! ## Theorems -/

/-- A persisted-store hit always carries the database source tag. -/
lemma dbAttempt_source (db : Db) (id : String) (r : ResolvedPart)
    (h : dbAttempt db id = some r) : r.source = databaseS := by
  unfold dbAttempt at h
  rcases hfind : findByIdE db (stripLegacy id) with _ | p
  · rw [hfind] at h
    exact absurd h (by simp)
  · rw [hfind] at h
    cases p with
    | none => exact absurd h (by simp)
    | some prod =>
        simp only [Option.some.injEq] at h
        rw [← h]

/-- A catalog hit always carries the predefined source tag. -/
lemma catalogAttempt_source (catalog : String → Option CatalogPart)
    (id : String) (r : ResolvedPart) (h : catalogAttempt catalog id = some r) :
    r.source = predefinedS := by
  unfold catalogAttempt at h
  rcases hcat : catalog id with _ | part
  · rw [hcat] at h
    exact absurd h (by simp)
  · rw [hcat] at h
    simp only [Option.some.injEq] at h
    rw [← h]

/-- The catalog attempt hits exactly when the catalog has the id. -/
lemma catalogAttempt_isSome (catalog : String → Option CatalogPart)
    (id : String) : (catalogAttempt catalog id).isSome = (catalog id).isSome := by
  unfold catalogAttempt
  rcases hcat : catalog id with _ | part <;> simp

/-- The two source tags differ. -/
lemma databaseS_ne_predefinedS : databaseS ≠ predefinedS := by decide

/-- C4: part resolution strips the legacy prefix before the persisted-store
lookup; the result is the static-catalog entry (looked up by the original
id) exactly when the persisted store misses and the catalog hits; a
persisted hit wins; a malformed store key (caught cast error) degrades to
the catalog attempt instead of failing; and the batch resolves entry by
entry, reporting unmatched ids in the not-found list without failing the
rest. -/
theorem C4_part_resolution (db : Db) (catalog : String → Option CatalogPart)
    (id : String) :
    ((∃ r, resolveOne db catalog id = some r ∧ r.source = predefinedS) ↔
      dbAttempt db id = none ∧ (catalog id).isSome = true)
  ∧ (∀ r, dbAttempt db id = some r →
      resolveOne db catalog id = some r ∧ r.source = databaseS)
  ∧ (db.valid (stripLegacy id) = false →
      resolveOne db catalog id = catalogAttempt catalog id)
  ∧ (∀ ids : List String,
      resolveByIds db catalog ids =
        (ids.filterMap (resolveOne db catalog),
         ids.filter (fun i => (resolveOne db catalog i).isNone))) := by
  refine ⟨?_, ?_, ?_, ?_⟩
  · constructor
    · rintro ⟨r, hr, hsrc⟩
      unfold resolveOne at hr
      rcases hdb : dbAttempt db id with _ | rdb
      · rw [hdb] at hr
        have hr2 : catalogAttempt catalog id = some r := hr
        refine ⟨rfl, ?_⟩
        rw [← catalogAttempt_isSome, hr2]
        rfl
      · rw [hdb] at hr
        simp only [Option.some.injEq] at hr
        rw [← hr] at hsrc
        have hdbs := dbAttempt_source db id rdb hdb
        rw [hdbs] at hsrc
        exact absurd hsrc databaseS_ne_predefinedS
    · rintro ⟨hdb, hcat⟩
      unfold resolveOne
      rw [hdb]
      rw [← catalogAttempt_isSome] at hcat
      cases hca : catalogAttempt catalog id with
      | none =>
          rw [hca] at hcat
          exact absurd hcat (by simp)
      | some r2 =>
          exact ⟨r2, rfl, catalogAttempt_source catalog id r2 hca⟩
  · intro r hdb
    refine ⟨?_, dbAttempt_source db id r hdb⟩
    unfold resolveOne
    rw [hdb]
  · intro hvalid
    unfold resolveOne dbAttempt findByIdE
    rw [hvalid]
    simp
  · intro ids
    induction ids with
    | nil => rfl
    | cons x rest ih =>
        simp only [resolveByIds, ih, List.filterMap_cons, List.filter_cons]
        rcases hx : resolveOne db catalog x with _ | r <;> simp [hx]

def prod0 : Product :=
  { name := "Brake Pad", category := "Brakes", brand := "Bosch",
    sellingPrice := 100, warranty := some ("1 year"), stockQty := 5 }

def catpart0 : CatalogPart :=
  { id := "part1", name := "Seat Cover", category := "Interior", price := 40 }

def db0 : Db :=
  { valid := fun s => s == ("abc"),
    find := fun s => if s == ("abc") then some prod0 else none }

def cat0 : String → Option CatalogPart :=
  fun s => if s == ("part1") then some catpart0 else none

def prodAbcId : String := "product-abc"

def r0 : ResolvedPart :=
  { id := prodAbcId, name := "Brake Pad", category := "Brakes",
    brand := some ("Bosch"), price := 100, warranty := some ("1 year"),
    stockQty := some 5, source := databaseS }

/-- Witness for C4 at concrete inputs: a malformed key degrades to the
catalog attempt, and a prefixed persisted id resolves from the store. -/
theorem C4_part_resolution_witness :
    (resolveOne db0 cat0 ("zz") = catalogAttempt cat0 ("zz"))
  ∧ (resolveOne db0 cat0 prodAbcId = some r0 ∧ r0.source = databaseS) :=
  ⟨(C4_part_resolution db0 cat0 ("zz")).2.2.1 (by decide),
   (C4_part_resolution db0 cat0 prodAbcId).2.1 r0 (by decide)⟩

def visit0 : ServiceVisit :=
  { status := inquiredS, vehicleReg := "MH12AB1234", notes := none,
    beforeImages := [], afterImages := [], handlerIds := [], partsUsed := [],
    totalAmount := none, stageTimestamps := [], customerMongoId := none }

def body0 : VisitPatchBody := { status := some workingS }

/-- C1 counterexample: the PATCH handler applies a status change to
`working` on a visit with zero handlers and zero before-images — the update
is accepted and the stored status changes, where the claim demands a
rejected update and an unchanged visit. -/
theorem C1_patch_counterexample :
    visit0.status = inquiredS ∧ visit0.handlerIds = [] ∧
    visit0.beforeImages = [] ∧
    patchStatusOf (serviceVisitPatch (some visit0) body0 0) = some workingS := by
  decide

/-- C1 amended: the handler/image preconditions are enforced client-side, in
`handleStatusUpdate`, before any PATCH is issued — a non-inquired target
with no handlers, a working/waiting target with no before-image, and a
completed target with no after-image are each rejected there with a
validation failure and no request (so the stored visit is unchanged); a
PATCH body is only ever sent when those preconditions hold. The server
endpoint itself applies any requested status change, and `completed` does
not require a before-image. -/
theorem C1_client_gate (service : ServiceVisit) (st : String)
    (hs bi ai : List String) :
    (st ≠ emptyS → st ≠ inquiredS → hs = [] →
      handleStatusUpdate (some service) st hs bi ai = .rejectHandler)
  ∧ ((st = workingS ∨ st = waitingS) → hs ≠ [] → bi = [] →
      handleStatusUpdate (some service) st hs bi ai = .rejectBefore)
  ∧ (st = completedS → hs ≠ [] → ai = [] →
      handleStatusUpdate (some service) st hs bi ai = .rejectAfter)
  ∧ (∀ body, handleStatusUpdate (some service) st hs bi ai = .sendPatch body →
      (st ≠ inquiredS → hs ≠ [])
      ∧ ((st = workingS ∨ st = waitingS) → bi ≠ [])
      ∧ (st = completedS → ai ≠ [])
      ∧ body = { status := some st, beforeImages := some bi,
                 afterImages := some ai, handlerIds := some hs }) := by
  refine ⟨?_, ?_, ?_, ?_⟩
  · intro hne hni hhs
    subst hhs
    simp only [handleStatusUpdate]
    rw [if_neg (by simp [hne]), if_pos (by simp [bne_iff_ne, hni])]
  · intro hww hhs hbi
    subst hbi
    have hne : st ≠ emptyS := by rcases hww with h | h <;> subst h <;> decide
    have hni : st ≠ inquiredS := by rcases hww with h | h <;> subst h <;> decide
    simp only [handleStatusUpdate]
    rw [if_neg (by simp [hne]), if_neg (by simp [List.isEmpty_iff, hhs]),
        if_pos (by rcases hww with h | h <;> subst h <;> simp)]
  · intro hc hhs hai
    subst hc hai
    simp only [handleStatusUpdate]
    rw [if_neg (by decide), if_neg (by simp [List.isEmpty_iff, hhs]),
        if_neg (by rw [show (completedS == workingS || completedS == waitingS)
          = false from by decide]; simp),
        if_pos (by simp)]
  · intro body h
    simp only [handleStatusUpdate] at h
    by_cases h1 : st == emptyS
    · rw [if_pos h1] at h
      exact absurd h (by simp)
    · rw [if_neg h1] at h
      by_cases h2 : st != inquiredS && hs.isEmpty
      · rw [if_pos h2] at h
        exact absurd h (by simp)
      · rw [if_neg h2] at h
        by_cases h3 : (st == workingS || st == waitingS) && bi.isEmpty
        · rw [if_pos h3] at h
          exact absurd h (by simp)
        · rw [if_neg h3] at h
          by_cases h4 : st == completedS && ai.isEmpty
          · rw [if_pos h4] at h
            exact absurd h (by simp)
          · rw [if_neg h4] at h
            by_cases h5 : st == service.status && bi == service.beforeImages
                && ai == service.afterImages
                && sortStrs hs == sortStrs service.handlerIds
            · rw [if_pos h5] at h
              exact absurd h (by simp)
            · rw [if_neg h5] at h
              simp only [ClientAction.sendPatch.injEq] at h
              refine ⟨?_, ?_, ?_, h.symm⟩
              · intro hni
                simp only [Bool.and_eq_true, bne_iff_ne, ne_eq,
                  List.isEmpty_iff] at h2
                intro hhs
                exact h2 ⟨hni, hhs⟩
              · intro hww
                simp only [Bool.and_eq_true, Bool.or_eq_true, beq_iff_eq,
                  List.isEmpty_iff] at h3
                intro hbi
                rcases hww with hw | hw
                · exact h3 ⟨Or.inl hw, hbi⟩
                · exact h3 ⟨Or.inr hw, hbi⟩
              · intro hc
                simp only [Bool.and_eq_true, beq_iff_eq, List.isEmpty_iff] at h4
                intro hai
                exact h4 ⟨hc, hai⟩

/-- Witness for C1's amended statement: a transition to working with no
handler is rejected by the client gate. -/
theorem C1_client_gate_witness :
    handleStatusUpdate (some visit0) workingS [] [] [] =
      ClientAction.rejectHandler :=
  (C1_client_gate visit0 workingS [] [] []).1 (by decide) (by decide) rfl

/-- C2: approving an invoice whose status is not `pending_approval` fails
with a conflict error carrying the invoice's actual status and returns
before any mutation; approving a `pending_approval` invoice always ends
with status `approved` and a persisted access token with a 7-day expiry,
for every outcome of the PDF, warranty and notification sub-steps — the
environment `env` ranges over all of them, thrown errors included. -/
theorem C2_approve (inv : Invoice) (userId : String) (env : ApproveEnv) :
    (inv.status ≠ pendingApprovalS →
      approveInvoice (some inv) userId env = .error (.notPending inv.status))
  ∧ (inv.status = pendingApprovalS →
      approvedStatusOf (approveInvoice (some inv) userId env) = some approvedS
      ∧ approvedTokenOf (approveInvoice (some inv) userId env)
          = some (some env.token)
      ∧ approvedExpiryOf (approveInvoice (some inv) userId env)
          = some (some (env.nowDay + 7))) := by
  constructor
  · intro hne
    simp only [approveInvoice]
    rw [if_pos hne]
  · intro hp
    simp only [approveInvoice]
    rw [if_neg (by rw [hp]; simp)]
    rcases env.pdfResult with e | path <;>
      simp [approvedStatusOf, approvedTokenOf, approvedExpiryOf]

/-- A concrete invoice used by the payment and approval witnesses. -/
def mkInvoice0 (status paymentStatus : String) (total paid due : Rat) : Invoice :=
  { mongoId := "inv1", invoiceNumber := "INV-2024-001",
    serviceVisitId := "visit1", customerId := some ("cust1"),
    customerDetails := none, vehicleDetails := [], items := [],
    subtotal := total, discountType := noneS, discountValue := 0,
    discountAmount := 0, couponCode := none, couponId := none,
    taxRate := 18, taxAmount := 0, totalAmount := total,
    paidAmount := paid, dueAmount := due, payments := [],
    status := status, paymentStatus := paymentStatus,
    paymentMethod := none, approvalStatus := none, pdfAccessToken := none,
    pdfTokenExpiry := none, pdfPath := none, notes := none, terms := none,
    createdBy := "user1", createdAt := 0 }

/-- An approval environment in which every best-effort sub-step throws. -/
def envThrow : ApproveEnv :=
  { token := "tok123", nowDay := 10, nowMonth := 650,
    products := fun _ => none, pdfResult := .error (),
    warrantyThrows := true, notifyThrows := true }

/-- Witness for C2: a draft invoice is rejected with its actual status, and
a pending invoice ends approved with the 7-day token even though the PDF,
warranty and notification steps all throw. -/
theorem C2_approve_witness :
    (approveInvoice (some (mkInvoice0 draftS unpaidS 500 0 500)) ("user1")
        envThrow = .error (.notPending draftS))
  ∧ (approvedStatusOf (approveInvoice
        (some (mkInvoice0 pendingApprovalS unpaidS 500 0 500)) ("user1")
        envThrow) = some approvedS)
  ∧ (approvedExpiryOf (approveInvoice
        (some (mkInvoice0 pendingApprovalS unpaidS 500 0 500)) ("user1")
        envThrow) = some (some 17)) :=
  ⟨(C2_approve (mkInvoice0 draftS unpaidS 500 0 500) ("user1") envThrow).1
      (by decide),
   ((C2_approve (mkInvoice0 pendingApprovalS unpaidS 500 0 500) ("user1")
      envThrow).2 rfl).1,
   ((C2_approve (mkInvoice0 pendingApprovalS unpaidS 500 0 500) ("user1")
      envThrow).2 rfl).2.2⟩

/-- `recordPayment` moves the paid amount from due to paid, leaving the
total untouched, so it preserves the money invariant. -/
lemma recordPayment_invariant (inv : Invoice) (a : Rat) (m : String)
    (t n : Option String) (u : String) (d : Nat)
    (h : inv.paidAmount + inv.dueAmount = inv.totalAmount) (inv2 : Invoice)
    (hok : recordPayment (some inv) a m t n u d = .ok inv2) :
    inv2.paidAmount + inv2.dueAmount = inv2.totalAmount := by
  simp only [recordPayment] at hok
  split at hok
  · exact absurd hok (by simp)
  · split at hok
    · exact absurd hok (by simp)
    · split at hok <;>
        [skip; split at hok] <;>
        · simp only [Except.ok.injEq] at hok
          rw [← hok]
          simp only []
          ring_nf
          ring_nf at h
          exact h

/-- `setPaymentStatus` either rewrites both paid and due consistently with
the total or leaves the amounts alone, so it preserves the money
invariant. -/
lemma setPaymentStatus_invariant (inv : Invoice) (ps : String)
    (m : Option String)
    (h : inv.paidAmount + inv.dueAmount = inv.totalAmount) (inv2 : Invoice)
    (hok : setPaymentStatus (some inv) ps m = .ok inv2) :
    inv2.paidAmount + inv2.dueAmount = inv2.totalAmount := by
  simp only [setPaymentStatus] at hok
  split at hok
  · exact absurd hok (by simp)
  · split at hok
    · exact absurd hok (by simp)
    · split at hok
      · exact absurd hok (by simp)
      · split at hok
        · simp only [Except.ok.injEq] at hok
          rw [← hok]
          simp
        · split at hok <;>
            simp only [Except.ok.injEq] at hok <;>
            rw [← hok] <;>
            simp [h]

/-- One accepted or rejected call preserves the money invariant. -/
lemma applyPaymentCall_invariant (inv : Invoice) (c : PaymentCall)
    (h : inv.paidAmount + inv.dueAmount = inv.totalAmount) :
    (applyPaymentCall inv c).paidAmount + (applyPaymentCall inv c).dueAmount
      = (applyPaymentCall inv c).totalAmount := by
  cases c with
  | record a m t n u d =>
      simp only [applyPaymentCall]
      cases hok : recordPayment (some inv) a m t n u d with
      | ok inv2 => exact recordPayment_invariant inv a m t n u d h inv2 hok
      | error e => exact h
  | setStatus ps m =>
      simp only [applyPaymentCall]
      cases hok : setPaymentStatus (some inv) ps m with
      | ok inv2 => exact setPaymentStatus_invariant inv ps m h inv2 hok
      | error e => exact h

/-- C3: starting from an invoice satisfying
`paidAmount + dueAmount = totalAmount`, the invariant holds again after any
sequence of `recordPayment` and `setPaymentStatus` calls (each accepted
call updates the amounts consistently; each rejected call leaves the
invoice unchanged) — in particular after every prefix of the sequence. -/
theorem C3_payment_invariant (inv : Invoice)
    (h : inv.paidAmount + inv.dueAmount = inv.totalAmount)
    (calls : List PaymentCall) :
    (applyPaymentCalls inv calls).paidAmount
      + (applyPaymentCalls inv calls).dueAmount
      = (applyPaymentCalls inv calls).totalAmount := by
  induction calls generalizing inv with
  | nil => exact h
  | cons c rest ih =>
      exact ih (applyPaymentCall inv c) (applyPaymentCall_invariant inv c h)

def calls3 : List PaymentCall :=
  [.record 300 cashS none none ("user1") 1,
   .setStatus partPayS none,
   .record 200 upiS none none ("user1") 2,
   .setStatus unpaidS none,
   .setStatus paidS (some cashS)]

/-- Witness for C3 on a concrete approved invoice and a concrete mixed call
sequence. -/
theorem C3_payment_invariant_witness :
    ((mkInvoice0 approvedS unpaidS 500 0 500).paidAmount
        + (mkInvoice0 approvedS unpaidS 500 0 500).dueAmount
        = (mkInvoice0 approvedS unpaidS 500 0 500).totalAmount)
  ∧ ((applyPaymentCalls (mkInvoice0 approvedS unpaidS 500 0 500)
        calls3).paidAmount
      + (applyPaymentCalls (mkInvoice0 approvedS unpaidS 500 0 500)
          calls3).dueAmount
      = (applyPaymentCalls (mkInvoice0 approvedS unpaidS 500 0 500)
          calls3).totalAmount) :=
  ⟨by simp [mkInvoice0],
   C3_payment_invariant (mkInvoice0 approvedS unpaidS 500 0 500)
     (by simp [mkInvoice0]) calls3⟩

/-- Coupon-code field of a creation result. -/
def createdCouponCode : Except String (Invoice × Option Coupon) →
    Option (Option String)
  | .ok p => some p.1.couponCode
  | .error _ => none

/-- Discount amount of a creation result. -/
def createdDiscount : Except String (Invoice × Option Coupon) → Option Rat
  | .ok p => some p.1.discountAmount
  | .error _ => none

/-- Coupon-reference field of a creation result. -/
def createdCouponId : Except String (Invoice × Option Coupon) →
    Option (Option String)
  | .ok p => some p.1.couponId
  | .error _ => none

/-- Whether a creation result carried a coupon usage update. -/
def createdCouponUpd : Except String (Invoice × Option Coupon) → Option Bool
  | .ok p => some p.2.isSome
  | .error _ => none

/-- Error message of a creation result. -/
def createdErrMsg : Except String (Invoice × Option Coupon) → Option String
  | .ok _ => none
  | .error e => some e

/-- A completed service visit with a customer, for the creation claims. -/
def visitDone : ServiceVisit :=
  { status := completedS, vehicleReg := "MH12AB1234", notes := none,
    beforeImages := [], afterImages := [], handlerIds := ["emp1"],
    partsUsed := [], totalAmount := none, stageTimestamps := [],
    customerMongoId := some ("cust1") }

def cust0 : Customer :=
  { mongoId := "cust1", referenceCode := none, fullName := "Asha Rao",
    mobileNumber := "9999999999", alternativeNumber := none, email := none,
    address := none, city := none, taluka := none, district := none,
    state := none, pinCode := none, referralSource := none,
    isVerified := true, createdAt := 0 }

/-- A coupon store with no coupons. -/
def noCoupon : String → Option Coupon := fun _ => none

def item500 : InvoiceItem :=
  { type := productS, productId := some ("prod1"), name := "Brake Pad",
    description := none, quantity := 1, unitPrice := 500, total := 500,
    hasWarranty := true, hasGst := false, gstAmount := 0,
    warrantyCards := [] }

def reqCoupon : CreateInvoiceReq :=
  { serviceVisitId := "visit1", items := [item500],
    couponCode := some ("save10") }

/-- C5 counterexample: creating an invoice with a coupon code that matches
no coupon still succeeds with zero discount and no coupon reference, but
the uppercased supplied code IS stored in the invoice's couponCode field —
the claim's "no coupon code attached to the invoice" fails. -/
theorem C5_coupon_counterexample :
    createdCouponCode (createInvoiceFromVisit (some visitDone) (some cust0)
        [] noCoupon reqCoupon ("user1") ("inv1") ("INV-1") 0)
      = some (some ("SAVE10"))
  ∧ createdDiscount (createInvoiceFromVisit (some visitDone) (some cust0)
        [] noCoupon reqCoupon ("user1") ("inv1") ("INV-1") 0) = some 0
  ∧ createdCouponUpd (createInvoiceFromVisit (some visitDone) (some cust0)
        [] noCoupon reqCoupon ("user1") ("inv1") ("INV-1") 0)
      = some false := by
  refine ⟨by decide, ?_, by decide⟩
  show some (0 : Rat) = some 0
  rfl

/-- C5 amended: when the supplied coupon code resolves to a coupon that
validates, the computed discount, the discount type/value and the coupon
reference are stored on the invoice, and the coupon's usage counter and
ledger are updated in the same creation; when the code is missing from the
store or the coupon does not validate, creation still succeeds with zero
discount, no coupon reference and no usage update — but the uppercased
supplied code string is stored in the invoice's couponCode field (rather
than no code being attached). -/
theorem C5_coupon_application (visit : ServiceVisit) (customer : Customer)
    (vehicles : List Vehicle) (findCoupon : String → Option Coupon)
    (req : CreateInvoiceReq) (userId iid inum : String) (now : Nat)
    (hvs : visit.status = completedS)
    (hcc : truthyStr req.couponCode = true) :
    (∀ coupon,
      findCoupon (upperStr (req.couponCode.getD emptyS)) = some coupon →
      coupon.validFor customer.mongoId (sumTotals req.items) = true →
      ∀ inv upd,
        createInvoiceFromVisit (some visit) (some customer) vehicles
          findCoupon req userId iid inum now = .ok (inv, upd) →
        inv.discountAmount = coupon.discountFor (sumTotals req.items)
        ∧ inv.discountType = coupon.discountType
        ∧ inv.discountValue = coupon.discountValue
        ∧ inv.couponId = some coupon.mongoId
        ∧ inv.totalAmount = sumTotals req.items - inv.discountAmount
        ∧ ∃ u, upd = some u
            ∧ u.usedCount = coupon.usedCount + 1
            ∧ u.usageHistory = coupon.usageHistory ++
                [{ invoiceId := iid, customerId := customer.mongoId,
                   discountApplied := inv.discountAmount }])
  ∧ ((findCoupon (upperStr (req.couponCode.getD emptyS)) = none
        ∨ ∃ coupon,
            findCoupon (upperStr (req.couponCode.getD emptyS)) = some coupon
            ∧ coupon.validFor customer.mongoId (sumTotals req.items) = false) →
      ∀ inv upd,
        createInvoiceFromVisit (some visit) (some customer) vehicles
          findCoupon req userId iid inum now = .ok (inv, upd) →
        inv.discountAmount = 0
        ∧ inv.couponId = none
        ∧ upd = none
        ∧ inv.couponCode = some (upperStr (req.couponCode.getD emptyS))
        ∧ inv.totalAmount = sumTotals req.items - 0)
  ∧ (createInvoiceFromVisit (some visit) (some customer) vehicles findCoupon
      req userId iid inum now).isOk = true := by
  have hne : ¬ visit.status ≠ completedS := by rw [hvs]; simp
  refine ⟨?_, ?_, ?_⟩
  · intro coupon hfind hvalid inv upd hok
    simp only [createInvoiceFromVisit] at hok
    rw [if_neg hne] at hok
    simp only [hcc, if_pos, hfind, hvalid, if_true] at hok
    simp only [Except.ok.injEq, Prod.mk.injEq] at hok
    obtain ⟨hinv, hupd⟩ := hok
    rw [← hinv, ← hupd]
    exact ⟨rfl, rfl, rfl, rfl, rfl, ⟨_, rfl, rfl, rfl⟩⟩
  · intro hmiss inv upd hok
    simp only [createInvoiceFromVisit] at hok
    rw [if_neg hne] at hok
    rcases hmiss with hnone | ⟨coupon, hfind, hinvalid⟩
    · simp only [hcc, if_pos, hnone] at hok
      simp only [Except.ok.injEq, Prod.mk.injEq] at hok
      obtain ⟨hinv, hupd⟩ := hok
      rw [← hinv, ← hupd]
      rcases hcs : req.couponCode with _ | s
      · rw [hcs] at hcc
        exact absurd hcc (by simp [truthyStr])
      · simp [hcs]
    · simp only [hcc, if_pos, hfind, hinvalid] at hok
      simp only [if_false, Except.ok.injEq, Prod.mk.injEq] at hok
      obtain ⟨hinv, hupd⟩ := hok
      rw [← hinv, ← hupd]
      rcases hcs : req.couponCode with _ | s
      · rw [hcs] at hcc
        exact absurd hcc (by simp [truthyStr])
      · simp [hcs]
  · simp only [createInvoiceFromVisit]
    rw [if_neg hne]
    rcases h : (if truthyStr req.couponCode then
        match findCoupon (upperStr (req.couponCode.getD emptyS)) with
        | some coupon =>
            if coupon.validFor customer.mongoId (sumTotals req.items) then
              some coupon
            else none
        | none => none
      else none) with _ | c <;> simp [Except.isOk, Except.toBool]

/-- A coupon that always validates and grants a flat 50 discount. -/
def coupon50 : Coupon :=
  { mongoId := "coup1", code := "SAVE10", discountType := "flat",
    discountValue := 50, usedCount := 3, usageHistory := [],
    validFor := fun _ _ => true, discountFor := fun _ => 50 }

/-- A coupon store holding exactly `coupon50` under its code. -/
def oneCoupon : String → Option Coupon :=
  fun s => if s == ("SAVE10") then some coupon50 else none

/-- Witness for C5's amended statement: at a concrete store whose coupon
validates and grants a flat 50, the created invoice stores the discount and
the coupon reference and the coupon usage is updated. -/
theorem C5_coupon_application_witness :
    createdDiscount (createInvoiceFromVisit (some visitDone) (some cust0)
        [] oneCoupon reqCoupon ("user1") ("inv1") ("INV-1") 0)
      = some (coupon50.discountFor (sumTotals reqCoupon.items))
    ∧ createdCouponId (createInvoiceFromVisit (some visitDone) (some cust0)
        [] oneCoupon reqCoupon ("user1") ("inv1") ("INV-1") 0)
      = some (some coupon50.mongoId)
    ∧ createdCouponUpd (createInvoiceFromVisit (some visitDone) (some cust0)
        [] oneCoupon reqCoupon ("user1") ("inv1") ("INV-1") 0)
      = some true := by
  have hall := C5_coupon_application visitDone cust0 [] oneCoupon reqCoupon
    ("user1") ("inv1") ("INV-1") 0 rfl rfl
  rcases hres : createInvoiceFromVisit (some visitDone) (some cust0) []
      oneCoupon reqCoupon ("user1") ("inv1") ("INV-1") 0 with e | ⟨inv, upd⟩
  · have hok := hall.2.2
    rw [hres] at hok
    exact absurd hok (by simp [Except.isOk, Except.toBool])
  · obtain ⟨h1, h2, h3, h4, h5, u, hu, hu1, hu2⟩ :=
      hall.1 coupon50 rfl rfl inv upd hres
    refine ⟨?_, ?_, ?_⟩
    · simp only [createdDiscount, h1]
    · simp only [createdCouponId, h4]
    · simp only [createdCouponUpd, hu, Option.isSome_some]

/-- C6 counterexample: on an approved invoice, the direct payment-status
toggle accepts the input `partial` and the stored paymentStatus becomes
`partial` — the claim that the toggle never results in `partial` fails. -/
theorem C6_partial_counterexample :
    payStatusOf (setPaymentStatus
        (some (mkInvoice0 approvedS unpaidS 500 0 500)) partPayS none)
      = some partPayS := by
  decide

/-- C6 amended: the direct toggle assigns whatever of paid / unpaid /
partial was requested — so `partial` IS reachable through it — but a
`partial` request leaves the paid/due amounts, the payment method and the
payment ledger untouched; only `paid` and `unpaid` rewrite the amounts. -/
theorem C6_toggle_behaviour (inv : Invoice) (ps : String)
    (m : Option String) (inv2 : Invoice)
    (h : setPaymentStatus (some inv) ps m = .ok inv2) :
    inv2.paymentStatus = ps
    ∧ (ps = partPayS →
        inv2.paidAmount = inv.paidAmount ∧ inv2.dueAmount = inv.dueAmount
        ∧ inv2.paymentMethod = inv.paymentMethod
        ∧ inv2.payments = inv.payments) := by
  simp only [setPaymentStatus] at h
  split at h
  · exact absurd h (by simp)
  · split at h
    · exact absurd h (by simp)
    · split at h
      · exact absurd h (by simp)
      · split at h
        · rename_i hpaid
          simp only [Except.ok.injEq] at h
          rw [← h]
          refine ⟨rfl, ?_⟩
          intro hps
          rw [hps] at hpaid
          exact absurd hpaid (by decide)
        · split at h
          · rename_i hunpaid
            simp only [Except.ok.injEq] at h
            rw [← h]
            refine ⟨rfl, ?_⟩
            intro hps
            rw [hps] at hunpaid
            exact absurd hunpaid (by decide)
          · simp only [Except.ok.injEq] at h
            rw [← h]
            exact ⟨rfl, fun _ => ⟨rfl, rfl, rfl, rfl⟩⟩

/-- Witness for C6's amended statement at the concrete `partial` call. -/
theorem C6_toggle_behaviour_witness :
    ({ mkInvoice0 approvedS unpaidS 500 0 500 with
        paymentStatus := partPayS } : Invoice).paymentStatus = partPayS
    ∧ (partPayS = partPayS →
        ({ mkInvoice0 approvedS unpaidS 500 0 500 with
            paymentStatus := partPayS } : Invoice).paidAmount
            = (mkInvoice0 approvedS unpaidS 500 0 500).paidAmount
        ∧ ({ mkInvoice0 approvedS unpaidS 500 0 500 with
            paymentStatus := partPayS } : Invoice).dueAmount
            = (mkInvoice0 approvedS unpaidS 500 0 500).dueAmount
        ∧ ({ mkInvoice0 approvedS unpaidS 500 0 500 with
            paymentStatus := partPayS } : Invoice).paymentMethod
            = (mkInvoice0 approvedS unpaidS 500 0 500).paymentMethod
        ∧ ({ mkInvoice0 approvedS unpaidS 500 0 500 with
            paymentStatus := partPayS } : Invoice).payments
            = (mkInvoice0 approvedS unpaidS 500 0 500).payments) :=
  C6_toggle_behaviour (mkInvoice0 approvedS unpaidS 500 0 500) partPayS none
    ({ mkInvoice0 approvedS unpaidS 500 0 500 with
        paymentStatus := partPayS }) (by rfl)

/-- Upserting into a list holding at most one entry for the part leaves
exactly one entry for the part. -/
lemma upsertCard_countP (pid n d : String) (cards : List VehicleCard)
    (h : cards.countP (fun wc => wc.partId == pid) ≤ 1) :
    (upsertCard pid n d cards).countP (fun wc => wc.partId == pid) = 1 := by
  induction cards with
  | nil => simp [upsertCard, List.countP_cons]
  | cons wc rest ih =>
      simp only [upsertCard]
      by_cases hwc : wc.partId == pid
      · rw [if_pos hwc]
        rw [List.countP_cons] at h
        simp only [hwc, if_true] at h
        have hrest : rest.countP (fun wc => wc.partId == pid) = 0 := by omega
        simp [List.countP_cons, hrest]
      · rw [if_neg hwc]
        rw [List.countP_cons] at h
        simp only [hwc] at h
        rw [List.countP_cons]
        simp only [hwc]
        simpa using ih (by simpa using h)

/-- The sync step never touches a vehicle's identity or selected parts. -/
lemma syncCard_fields (ids : List String) (pid n d : String) (v : Vehicle) :
    (syncCardToVehicle ids pid n d v).vehicleId = v.vehicleId
    ∧ (syncCardToVehicle ids pid n d v).mongoId = v.mongoId
    ∧ (syncCardToVehicle ids pid n d v).selectedParts = v.selectedParts := by
  unfold syncCardToVehicle
  split <;> exact ⟨rfl, rfl, rfl⟩

/-- A matching sync step on a vehicle with at most one entry for the part
yields exactly one entry for the part. -/
lemma syncCard_countP (ids : List String) (pid n d : String) (v : Vehicle)
    (hmatch : (ids.contains v.vehicleId || ids.contains v.mongoId) = true)
    (hsel : v.selectedParts.contains pid = true)
    (h : v.warrantyCards.countP (fun wc => wc.partId == pid) ≤ 1) :
    (syncCardToVehicle ids pid n d v).warrantyCards.countP
      (fun wc => wc.partId == pid) = 1 := by
  unfold syncCardToVehicle
  rw [if_pos (by rw [hmatch, hsel]; rfl)]
  exact upsertCard_countP pid n d v.warrantyCards h

/-- Any further matching sync steps keep the entry count for the part at
exactly one. -/
lemma syncUploads_keeps (ids : List String) (pid : String)
    (uploads : List (String × String)) (v : Vehicle)
    (hmatch : (ids.contains v.vehicleId || ids.contains v.mongoId) = true)
    (hsel : v.selectedParts.contains pid = true)
    (h1 : v.warrantyCards.countP (fun wc => wc.partId == pid) = 1) :
    (syncUploads ids pid v uploads).warrantyCards.countP
      (fun wc => wc.partId == pid) = 1 := by
  induction uploads generalizing v with
  | nil => exact h1
  | cons u rest ih =>
      simp only [syncUploads]
      obtain ⟨hv, hm, hs⟩ := syncCard_fields ids pid u.1 u.2 v
      exact ih (syncCardToVehicle ids pid u.1 u.2 v)
        (by rw [hv, hm]; exact hmatch) (by rw [hs]; exact hsel)
        (syncCard_countP ids pid u.1 u.2 v hmatch hsel (by omega))

/-- C7: on a vehicle whose identity matches the invoice's snapshotted
vehicle ids, whose selected parts contain the product id, and whose
warranty-card list holds at most one entry for that part, any non-empty
sequence of warranty-card uploads for the product leaves exactly one
`warrantyCards` entry keyed by that partId — a later upload replaces the
prior entry instead of appending a second one. -/
theorem C7_warranty_card_upsert (v : Vehicle) (ids : List String)
    (pid : String) (uploads : List (String × String))
    (hmatch : (ids.contains v.vehicleId || ids.contains v.mongoId) = true)
    (hsel : v.selectedParts.contains pid = true)
    (hcount : v.warrantyCards.countP (fun wc => wc.partId == pid) ≤ 1)
    (hne : uploads ≠ []) :
    (syncUploads ids pid v uploads).warrantyCards.countP
      (fun wc => wc.partId == pid) = 1 := by
  cases uploads with
  | nil => exact absurd rfl hne
  | cons u rest =>
      simp only [syncUploads]
      obtain ⟨hv, hm, hs⟩ := syncCard_fields ids pid u.1 u.2 v
      exact syncUploads_keeps ids pid rest (syncCardToVehicle ids pid u.1 u.2 v)
        (by rw [hv, hm]; exact hmatch) (by rw [hs]; exact hsel)
        (syncCard_countP ids pid u.1 u.2 v hmatch hsel hcount)

def vehicle0 : Vehicle :=
  { mongoId := "veh1", customerId := "cust1", vehicleId := "VH-001",
    vehicleNumber := "MH12AB1234", vehicleBrand := "Tata",
    vehicleModel := "Nexon", customModel := none, variant := none,
    color := none, yearOfPurchase := none, vehiclePhoto := none,
    isNewVehicle := false, chassisNumber := none,
    selectedParts := ["prod1", "part9"], warrantyCards := [],
    createdAt := 0 }

/-- Witness for C7: two uploads for the same product on the same vehicle
leave exactly one warranty-card entry for that part. -/
theorem C7_warranty_card_upsert_witness :
    (syncUploads ["VH-001"] ("prod1") vehicle0
        [("Brake Pad", "data:a"), ("Brake Pad", "data:b")]).warrantyCards.countP
      (fun wc => wc.partId == ("prod1")) = 1 :=
  C7_warranty_card_upsert vehicle0 ["VH-001"] ("prod1")
    [("Brake Pad", "data:a"), ("Brake Pad", "data:b")]
    (by decide) (by decide) (by decide) (by decide)

def visitWorking : ServiceVisit := { visitDone with status := workingS }

def visitWaiting : ServiceVisit := { visitDone with status := waitingS }

/-- C8 counterexample: creating an invoice from a visit whose status is
`working` fails with the fixed message "Can only generate invoice for
completed service visits" — the same message as for a `waiting` visit — and
that message does not contain the visit's actual status, so the error does
not name it. -/
theorem C8_no_status_in_error :
    createdErrMsg (createInvoiceFromVisit (some visitWorking) (some cust0)
        [] noCoupon reqCoupon ("user1") ("inv1") ("INV-1") 0)
      = some notCompletedMsg
  ∧ createdErrMsg (createInvoiceFromVisit (some visitWaiting) (some cust0)
        [] noCoupon reqCoupon ("user1") ("inv1") ("INV-1") 0)
      = some notCompletedMsg
  ∧ strContains notCompletedMsg workingS = false
  ∧ strContains notCompletedMsg waitingS = false := by
  refine ⟨by decide, by decide, by decide, by decide⟩

/-- C8 amended: invoice creation from a service visit fails — returning an
error and creating no invoice — when the visit is missing (404), has no
associated customer, or its status is not exactly `completed`; the
non-completed error is the fixed message "Can only generate invoice for
completed service visits", which does not include the visit's actual
status. -/
theorem C8_creation_preconditions (visit? : Option ServiceVisit)
    (customer? : Option Customer) (vehicles : List Vehicle)
    (findCoupon : String → Option Coupon) (req : CreateInvoiceReq)
    (userId iid inum : String) (now : Nat) :
    (visit? = none →
      createInvoiceFromVisit visit? customer? vehicles findCoupon req userId
        iid inum now = .error visitNotFoundMsg)
  ∧ (∀ v, visit? = some v → customer? = none →
      createInvoiceFromVisit visit? customer? vehicles findCoupon req userId
        iid inum now = .error noCustomerMsg)
  ∧ (∀ v c, visit? = some v → customer? = some c → v.status ≠ completedS →
      createInvoiceFromVisit visit? customer? vehicles findCoupon req userId
        iid inum now = .error notCompletedMsg) := by
  refine ⟨?_, ?_, ?_⟩
  · intro h
    rw [h]
    rfl
  · intro v hv hc
    rw [hv, hc]
    rfl
  · intro v c hv hc hne
    rw [hv, hc]
    simp only [createInvoiceFromVisit]
    rw [if_pos hne]

/-- Witness for C8's amended statement on the three concrete failure
shapes. -/
theorem C8_creation_preconditions_witness :
    (createInvoiceFromVisit none (some cust0) [] noCoupon reqCoupon
        ("user1") ("inv1") ("INV-1") 0 = .error visitNotFoundMsg)
  ∧ (createInvoiceFromVisit (some visitDone) none [] noCoupon reqCoupon
        ("user1") ("inv1") ("INV-1") 0 = .error noCustomerMsg)
  ∧ (createInvoiceFromVisit (some visitWorking) (some cust0) [] noCoupon
        reqCoupon ("user1") ("inv1") ("INV-1") 0 = .error notCompletedMsg) :=
  ⟨(C8_creation_preconditions none (some cust0) [] noCoupon reqCoupon
      ("user1") ("inv1") ("INV-1") 0).1 rfl,
   (C8_creation_preconditions (some visitDone) none [] noCoupon reqCoupon
      ("user1") ("inv1") ("INV-1") 0).2.1 visitDone rfl rfl,
   (C8_creation_preconditions (some visitWorking) (some cust0) [] noCoupon
      reqCoupon ("user1") ("inv1") ("INV-1") 0).2.2 visitWorking cust0 rfl rfl
      (by decide)⟩

/-- C9: during approval, a warranty record arises from a
`hasWarranty`-flagged product line item exactly when the referenced
persisted product exists and carries a non-empty warranty string; its
duration is the first integer literal of that string (12 when the string
holds no integer), and its end date is the start date plus the duration in
months. Every record produced by `warrantiesOnApproval` comes from such an
item. -/
theorem C9_warranty_records (products : String → Option Product)
    (iid cid : String) (start : Nat) :
    (∀ item : InvoiceItem,
      (mkWarrantyForItem products iid cid start item).isSome = true ↔
        ∃ p w, item.productId.bind products = some p ∧ p.warranty = some w
          ∧ w ≠ emptyS)
  ∧ (∀ item wrec, mkWarrantyForItem products iid cid start item = some wrec →
      ∃ p w, item.productId.bind products = some p ∧ p.warranty = some w
        ∧ w ≠ emptyS
        ∧ wrec.durationMonths = warrantyDuration w
        ∧ wrec.startDate = start
        ∧ wrec.endDate = start + warrantyDuration w)
  ∧ (∀ s n, firstDigitRun s = some n → warrantyDuration s = n)
  ∧ (∀ s, firstDigitRun s = none → warrantyDuration s = 12)
  ∧ (∀ items wrec,
      wrec ∈ warrantiesOnApproval products iid cid start items →
      ∃ item, item ∈ items ∧ item.hasWarranty = true ∧ item.type = productS
        ∧ mkWarrantyForItem products iid cid start item = some wrec) := by
  refine ⟨?_, ?_, ?_, ?_, ?_⟩
  · intro item
    constructor
    · intro hsome
      unfold mkWarrantyForItem at hsome
      split at hsome
      · exact absurd hsome (by simp)
      · rename_i p hp
        split at hsome
        · exact absurd hsome (by simp)
        · rename_i w hw
          split at hsome
          · exact absurd hsome (by simp)
          · rename_i hwe
            exact ⟨p, w, hp, hw, by simpa using hwe⟩
    · rintro ⟨p, w, hp, hw, hwe⟩
      unfold mkWarrantyForItem
      simp only [hp, hw]
      rw [if_neg (by simpa using hwe)]
      rfl
  · intro item wrec hok
    unfold mkWarrantyForItem at hok
    split at hok
    · exact absurd hok (by simp)
    · rename_i p hp
      split at hok
      · exact absurd hok (by simp)
      · rename_i w hw
        split at hok
        · exact absurd hok (by simp)
        · rename_i hwe
          simp only [Option.some.injEq] at hok
          rw [← hok]
          exact ⟨p, w, hp, hw, by simpa using hwe, rfl, rfl, rfl⟩
  · intro s n h
    unfold warrantyDuration
    rw [h]
    rfl
  · intro s h
    unfold warrantyDuration
    rw [h]
    rfl
  · intro items wrec hmem
    unfold warrantiesOnApproval at hmem
    rw [List.mem_filterMap] at hmem
    obtain ⟨item, hitem, hmk⟩ := hmem
    rw [List.mem_filter] at hitem
    obtain ⟨hin, hflags⟩ := hitem
    simp only [Bool.and_eq_true, beq_iff_eq] at hflags
    exact ⟨item, hin, hflags.1, hflags.2, hmk⟩

/-- A product store for the C9 witness: `prod1` carries warranty
"2 years", `prod2` carries warranty "lifetime" with no integer. -/
def products9 : String → Option Product :=
  fun s =>
    if s == ("prod1") then
      some { name := "Brake Pad", category := "Brakes", brand := "Bosch",
             sellingPrice := 500, warranty := some ("2 years"),
             stockQty := 5 }
    else if s == ("prod2") then
      some { name := "Coating", category := "Body", brand := "3M",
             sellingPrice := 900, warranty := some ("lifetime"),
             stockQty := 2 }
    else none

def w9 : Warranty :=
  { invoiceId := "inv1", customerId := "cust1", productId := "prod1",
    productName := "Brake Pad", warrantyType := manufacturerS,
    durationMonths := 2, startDate := 650, endDate := 652,
    coverage := "2 years", status := activeS }

/-- Witness for C9: a concrete warranty record parsed from "2 years" has
duration 2 and end date start + 2, and "lifetime" parses to the default
12. -/
theorem C9_warranty_records_witness :
    (∃ p w, item500.productId.bind products9 = some p ∧ p.warranty = some w
      ∧ w ≠ emptyS
      ∧ w9.durationMonths = warrantyDuration w
      ∧ w9.startDate = 650
      ∧ w9.endDate = 650 + warrantyDuration w)
  ∧ warrantyDuration ("lifetime") = 12 :=
  ⟨(C9_warranty_records products9 ("inv1") ("cust1") 650).2.1 item500 w9
      (by decide),
   (C9_warranty_records products9 ("inv1") ("cust1") 650).2.2.2.1
      ("lifetime") (by decide)⟩

/-- C10: the token-gated public PDF endpoint refuses every request for an
invoice whose status is not `approved`, before any token comparison — the
outcome is the not-approved rejection for every supplied token, including
the exactly matching, unexpired one. -/
theorem C10_public_pdf_status_gate (inv : Invoice) (token? : Option String)
    (now : Nat) (fileExists : String → Bool) (genPath : String)
    (h : inv.status ≠ approvedS) :
    publicInvoicePdf (some inv) token? now fileExists genPath
      = .notApproved := by
  simp only [publicInvoicePdf]
  rw [if_pos h]

/-- A pending invoice that nevertheless carries a stored, unexpired access
token. -/
def invPendingTok : Invoice :=
  { mkInvoice0 pendingApprovalS unpaidS 500 0 500 with
    pdfAccessToken := some ("tok123"), pdfTokenExpiry := some 100 }

/-- Witness for C10: the request presenting the exactly matching token,
well before its expiry, is still refused because the invoice is not
approved. -/
theorem C10_public_pdf_status_gate_witness :
    invPendingTok.pdfAccessToken = some ("tok123")
    ∧ publicInvoicePdf (some invPendingTok) (some ("tok123")) 0
        (fun _ => true) ("out.pdf") = .notApproved :=
  ⟨rfl,
   C10_public_pdf_status_gate invPendingTok (some ("tok123")) 0
     (fun _ => true) ("out.pdf") (by decide)⟩

end AutoCar
